import Mathlib

/-!
Verification development for the genai-diet-planner repository
(`ai_dietitian.py`, `models.py`, `app.py`).

Modelling conventions:
* Python strings are `List Char` at the sanitizer level and `String` at the
  JSON/data level.
* JSON values produced by `json.loads` are the `Json` inductive; `json.loads`
  itself (a Python standard-library function, not repository code) is
  abstracted as a parser parameter of type `List Char → Except String Json`.
* pydantic v1 validation of the repository models (`models.py`) is embedded
  field by field.  pydantic v1 collects all field errors while this embedding
  stops at the first; only the error *message* differs, and the pipeline
  collapses every error to `none`, so no statement below depends on messages.
  pydantic v1 numeric-string coercions (e.g. `int("3")`) are omitted; no
  statement below exercises them.
* The OpenAI call is abstracted as an `Except String String` outcome
  (`.error e` = the API raised an exception with text `e`).
-/

namespace DietPlanner

/-- The backtick character (written via its code point). -/
def backtick : Char := Char.ofNat 96

/-- The whitespace characters removed by Python `str.strip()`. -/
def isPySpace (c : Char) : Bool :=
  c = ' ' || c = '\t' || c = '\n' || c = '\r' || c = '\x0b' || c = '\x0c'

/-- Python `s.strip()`: drop leading and trailing whitespace. -/
def pyStrip (s : List Char) : List Char :=
  (s.dropWhile isPySpace).rdropWhile isPySpace

/-- Python `s.startswith(pat)` on character lists. -/
def startsWithL : List Char → List Char → Bool
  | [], _ => true
  | _ :: _, [] => false
  | p :: ps, c :: cs => p == c && startsWithL ps cs

/-- Python `s.endswith(pat)` on character lists. -/
def endsWithL (pat s : List Char) : Bool :=
  startsWithL pat.reverse s.reverse

/-- The characters of the opening fence marker `"```json"`. -/
def jsonFence : List Char := "```json".toList

/-- The characters of the closing fence marker `"```"`. -/
def closeFence : List Char := "```".toList

/-- ResponseSanitizer, from `ai_dietitian.py` lines 166-171 (and the identical
copy at lines 236-241): `content.strip()`, then `content[7:]` when the result
starts with `"```json"`, then `content[:-3]` when the result ends with
`"```"`. -/
def sanitize (s : List Char) : List Char :=
  let c1 := pyStrip s
  let c2 := if startsWithL jsonFence c1 then c1.drop 7 else c1
  if endsWithL closeFence c2 then c2.take (c2.length - 3) else c2

/-! ### JSON values and the data model of `models.py` -/

/-- The tree of values `json.loads` can return (`jint`/`jnum` mirror Python's
distinct `int` and `float` JSON numbers).  A `jobj` models the parsed `dict`,
whose keys are unique. -/
inductive Json where
  | jnull
  | jbool (b : Bool)
  | jint (n : Int)
  | jnum (q : Rat)
  | jstr (s : String)
  | jarr (elems : List Json)
  | jobj (fields : List (String × Json))

abbrev JObj := List (String × Json)

/-- Key lookup in a parsed JSON object (keys are unique, see `Json.jobj`). -/
def jlookup (fs : JObj) (k : String) : Option Json :=
  match fs with
  | [] => none
  | (k', v) :: rest => if k' = k then some v else jlookup rest k

/-- `ActivityLevel` enumeration, `models.py` lines 5-11. -/
inductive ActivityLevel where
  | sedentary | lightly_active | moderately_active | very_active | extremely_active
deriving DecidableEq

/-- `Goal` enumeration, `models.py` lines 13-19. -/
inductive Goal where
  | weight_loss | weight_gain | maintenance | muscle_gain | general_health
deriving DecidableEq

/-- `DietaryRestriction` enumeration, `models.py` lines 21-31. -/
inductive DietaryRestriction where
  | none | vegetarian | vegan | gluten_free | dairy_free | nut_free | low_carb | keto | paleo
deriving DecidableEq

/-- `MealTime` enumeration, `models.py` lines 33-38. -/
inductive MealTime where
  | breakfast | lunch | dinner | snacks
deriving DecidableEq

/-- `UserProfile`, `models.py` lines 40-57 (field order preserved).  Python
`float` is modelled as `Rat`, `Dict[str, str]` as an association list and
`Optional[X]` as `Option X`. -/
structure UserProfile where
  name : String
  age : Int
  gender : String
  height_cm : Rat
  weight_kg : Rat
  target_weight_kg : Option Rat
  activity_level : ActivityLevel
  goal : Goal
  dietary_restrictions : List DietaryRestriction
  allergies : List String
  preferences : List String
  dislikes : List String
  daily_routine : List (String × String)
  cooking_skill : String
  budget_constraint : Option String
  cultural_preferences : List String

/-- `MealPlan`, `models.py` lines 59-69; `nutrition_info : Dict[str, Any]` is
an arbitrary JSON object. -/
structure MealPlan where
  meal_time : MealTime
  meal_name : String
  description : String
  ingredients : List String
  instructions : List String
  nutrition_info : JObj
  prep_time : String
  cooking_time : String
  difficulty : String

/-- `DailyPlan`, `models.py` lines 71-79. -/
structure DailyPlan where
  day : String
  meals : List MealPlan
  total_calories : Int
  total_protein : Rat
  total_carbs : Rat
  total_fat : Rat
  notes : Option String

/-- `WeeklyDietPlan`, `models.py` lines 81-88; `weekly_summary : Dict[str, Any]`
is an arbitrary JSON object. -/
structure WeeklyDietPlan where
  user_profile : UserProfile
  daily_plans : List DailyPlan
  weekly_summary : JObj
  recommendations : List String
  shopping_list : List String
  created_date : String

/-! ### pydantic v1 field validation

`models.py` declares every field with `Field(description=...)` and no default,
so in pydantic v1 every non-`Optional` field is required, while `Optional[X]`
fields implicitly default to `None`.  No field has a custom validator, so
validation is purely type/enum-driven. -/

/-- pydantic v1 validation of a `str` field (numeric→str coercion omitted;
nothing below exercises it). -/
def vStr : Json → Except String String
  | .jstr s => .ok s
  | _ => .error "str type expected"

/-- pydantic v1 validation of an `int` field: `int(v)`, which accepts `bool`
and truncates `float` toward zero (numeric strings omitted). -/
def vInt : Json → Except String Int
  | .jint n => .ok n
  | .jbool b => .ok (if b then 1 else 0)
  | .jnum q => .ok (q.num / (q.den : Int))
  | _ => .error "int type expected"

/-- pydantic v1 validation of a `float` field: `float(v)` accepts `int`,
`float` and `bool` (numeric strings omitted). -/
def vFloat : Json → Except String Rat
  | .jnum q => .ok q
  | .jint n => .ok (n : Rat)
  | .jbool b => .ok (if b then 1 else 0)
  | _ => .error "float type expected"

def activityStrings : List String :=
  ["sedentary", "lightly_active", "moderately_active", "very_active", "extremely_active"]

def parseActivity (s : String) : Option ActivityLevel :=
  if s = "sedentary" then some .sedentary
  else if s = "lightly_active" then some .lightly_active
  else if s = "moderately_active" then some .moderately_active
  else if s = "very_active" then some .very_active
  else if s = "extremely_active" then some .extremely_active
  else none

def goalStrings : List String :=
  ["weight_loss", "weight_gain", "maintenance", "muscle_gain", "general_health"]

def parseGoal (s : String) : Option Goal :=
  if s = "weight_loss" then some .weight_loss
  else if s = "weight_gain" then some .weight_gain
  else if s = "maintenance" then some .maintenance
  else if s = "muscle_gain" then some .muscle_gain
  else if s = "general_health" then some .general_health
  else none

def restrictionStrings : List String :=
  ["none", "vegetarian", "vegan", "gluten_free", "dairy_free", "nut_free",
   "low_carb", "keto", "paleo"]

def parseRestriction (s : String) : Option DietaryRestriction :=
  if s = "none" then some .none
  else if s = "vegetarian" then some .vegetarian
  else if s = "vegan" then some .vegan
  else if s = "gluten_free" then some .gluten_free
  else if s = "dairy_free" then some .dairy_free
  else if s = "nut_free" then some .nut_free
  else if s = "low_carb" then some .low_carb
  else if s = "keto" then some .keto
  else if s = "paleo" then some .paleo
  else none

def mealTimeStrings : List String := ["breakfast", "lunch", "dinner", "snacks"]

def parseMealTime (s : String) : Option MealTime :=
  if s = "breakfast" then some .breakfast
  else if s = "lunch" then some .lunch
  else if s = "dinner" then some .dinner
  else if s = "snacks" then some .snacks
  else none

/-- pydantic v1 validation of a `str`-valued `Enum` field: the JSON value must
be a string equal to one of the enumeration values. -/
def vEnum (parse : String → Option α) (what : String) : Json → Except String α
  | .jstr s =>
    match parse s with
    | some a => .ok a
    | Option.none => .error (what ++ " enum value expected")
  | _ => .error (what ++ " enum value expected")

/-- Traverse a list with a validator, failing on the first element error
(pydantic reports all errors; only the message differs). -/
def mapExcept (f : Json → Except String α) : List Json → Except String (List α)
  | [] => .ok []
  | x :: xs => do
    let a ← f x
    let as ← mapExcept f xs
    .ok (a :: as)

/-- pydantic v1 validation of a `List[T]` field. -/
def vList (f : Json → Except String α) : Json → Except String (List α)
  | .jarr xs => mapExcept f xs
  | _ => .error "list type expected"

/-- pydantic v1 validation of a `Dict[str, str]` field. -/
def vStrPairs : List (String × Json) → Except String (List (String × String))
  | [] => .ok []
  | (k, v) :: rest => do
    let s ← vStr v
    let tail ← vStrPairs rest
    .ok ((k, s) :: tail)

def vStrDict : Json → Except String (List (String × String))
  | .jobj fs => vStrPairs fs
  | _ => .error "dict type expected"

/-- pydantic v1 validation of a `Dict[str, Any]` field. -/
def vAnyDict : Json → Except String JObj
  | .jobj fs => .ok fs
  | _ => .error "dict type expected"

/-- A required field (pydantic v1: no default was given). -/
def reqField (fs : JObj) (k : String) : Except String Json :=
  match jlookup fs k with
  | some v => .ok v
  | Option.none => .error (k ++ " field required")

/-- An `Optional[X]` field (pydantic v1: implicitly defaults to `None`;
an explicit JSON `null` also validates to `None`). -/
def optField (fs : JObj) (k : String) : Option Json :=
  match jlookup fs k with
  | some .jnull => Option.none
  | some v => some v
  | Option.none => Option.none

def vOptFloat (fs : JObj) (k : String) : Except String (Option Rat) :=
  match optField fs k with
  | Option.none => .ok Option.none
  | some v => (vFloat v).map some

def vOptStr (fs : JObj) (k : String) : Except String (Option String) :=
  match optField fs k with
  | Option.none => .ok Option.none
  | some v => (vStr v).map some

/-- `UserProfile(**profile_data)`: pydantic v1 validation of the profile model.
A non-dict argument raises (`**` unpacking), modelled by the error branch. -/
def validateUserProfile : Json → Except String UserProfile
  | .jobj fs => do
    let name ← reqField fs "name" >>= vStr
    let age ← reqField fs "age" >>= vInt
    let gender ← reqField fs "gender" >>= vStr
    let height_cm ← reqField fs "height_cm" >>= vFloat
    let weight_kg ← reqField fs "weight_kg" >>= vFloat
    let target_weight_kg ← vOptFloat fs "target_weight_kg"
    let activity_level ← reqField fs "activity_level" >>= vEnum parseActivity "ActivityLevel"
    let goal ← reqField fs "goal" >>= vEnum parseGoal "Goal"
    let dietary_restrictions ← reqField fs "dietary_restrictions" >>=
      vList (vEnum parseRestriction "DietaryRestriction")
    let allergies ← reqField fs "allergies" >>= vList vStr
    let preferences ← reqField fs "preferences" >>= vList vStr
    let dislikes ← reqField fs "dislikes" >>= vList vStr
    let daily_routine ← reqField fs "daily_routine" >>= vStrDict
    let cooking_skill ← reqField fs "cooking_skill" >>= vStr
    let budget_constraint ← vOptStr fs "budget_constraint"
    let cultural_preferences ← reqField fs "cultural_preferences" >>= vList vStr
    pure { name, age, gender, height_cm, weight_kg, target_weight_kg,
           activity_level, goal, dietary_restrictions, allergies, preferences,
           dislikes, daily_routine, cooking_skill, budget_constraint,
           cultural_preferences }
  | _ => .error "profile data is not an object"

/-- `MealPlan` model validation (nested inside `DailyPlan`). -/
def validateMealPlan : Json → Except String MealPlan
  | .jobj fs => do
    let meal_time ← reqField fs "meal_time" >>= vEnum parseMealTime "MealTime"
    let meal_name ← reqField fs "meal_name" >>= vStr
    let description ← reqField fs "description" >>= vStr
    let ingredients ← reqField fs "ingredients" >>= vList vStr
    let instructions ← reqField fs "instructions" >>= vList vStr
    let nutrition_info ← reqField fs "nutrition_info" >>= vAnyDict
    let prep_time ← reqField fs "prep_time" >>= vStr
    let cooking_time ← reqField fs "cooking_time" >>= vStr
    let difficulty ← reqField fs "difficulty" >>= vStr
    pure { meal_time, meal_name, description, ingredients, instructions,
           nutrition_info, prep_time, cooking_time, difficulty }
  | _ => .error "meal plan data is not an object"

/-- `DailyPlan` model validation (nested inside `WeeklyDietPlan`). -/
def validateDailyPlan : Json → Except String DailyPlan
  | .jobj fs => do
    let day ← reqField fs "day" >>= vStr
    let meals ← reqField fs "meals" >>= vList validateMealPlan
    let total_calories ← reqField fs "total_calories" >>= vInt
    let total_protein ← reqField fs "total_protein" >>= vFloat
    let total_carbs ← reqField fs "total_carbs" >>= vFloat
    let total_fat ← reqField fs "total_fat" >>= vFloat
    let notes ← vOptStr fs "notes"
    pure { day, meals, total_calories, total_protein, total_carbs, total_fat, notes }
  | _ => .error "daily plan data is not an object"

/-- `WeeklyDietPlan(**plan_data)`: pydantic v1 validation of the plan model.
Note: no length constraint on `daily_plans`, no relation between the stored
totals and the per-meal figures, and `weekly_summary` is an arbitrary dict. -/
def validateWeeklyDietPlan : Json → Except String WeeklyDietPlan
  | .jobj fs => do
    let user_profile ← reqField fs "user_profile" >>= validateUserProfile
    let daily_plans ← reqField fs "daily_plans" >>= vList validateDailyPlan
    let weekly_summary ← reqField fs "weekly_summary" >>= vAnyDict
    let recommendations ← reqField fs "recommendations" >>= vList vStr
    let shopping_list ← reqField fs "shopping_list" >>= vList vStr
    let created_date ← reqField fs "created_date" >>= vStr
    pure { user_profile, daily_plans, weekly_summary, recommendations,
           shopping_list, created_date }
  | _ => .error "plan data is not an object"

/-! ### The extraction pipeline of `ai_dietitian.py` -/

/-- The body of `extract_user_profile` (`ai_dietitian.py` lines 155-174), as
an exception-producing computation: the oracle call (`resp`, `.error` = the
API raised), then sanitization, then `json.loads` (abstracted as `loads`),
then pydantic validation. -/
def extract_user_profile_body (loads : List Char → Except String Json)
    (resp : Except String (List Char)) : Except String UserProfile := do
  let content ← resp
  let j ← loads (sanitize content)
  validateUserProfile j

/-- `extract_user_profile` (`ai_dietitian.py` lines 122-178): the
`except Exception` clause prints the reason and returns `None`, collapsing
every failure to the reason-free `none`. -/
def extract_user_profile (loads : List Char → Except String Json)
    (resp : Except String (List Char)) : Option UserProfile :=
  (extract_user_profile_body loads resp).toOption

/-- The body of `create_diet_plan` (`ai_dietitian.py` lines 225-244), same
pipeline shape with the plan schema. -/
def create_diet_plan_body (loads : List Char → Except String Json)
    (resp : Except String (List Char)) : Except String WeeklyDietPlan := do
  let content ← resp
  let j ← loads (sanitize content)
  validateWeeklyDietPlan j

/-- `create_diet_plan` (`ai_dietitian.py` lines 180-248): failures are
collapsed to `None` by the `except Exception` clause. -/
def create_diet_plan (loads : List Char → Except String Json)
    (resp : Except String (List Char)) : Option WeeklyDietPlan :=
  (create_diet_plan_body loads resp).toOption

/-- The apology prefix of `chat` (`ai_dietitian.py` line 120), built without
an apostrophe literal. -/
def apologyText : String :=
  "I apologize, but I" ++ String.singleton (Char.ofNat 39) ++
    "m experiencing technical difficulties. Please try again. Error: "

/-- `chat` (`ai_dietitian.py` lines 95-120): on a successful oracle call the
reply text is returned; on any exception the apology string embedding
`str(e)` is returned through the same `str` channel.  The payload
construction (lines 98-109) only shapes what is sent, not the return path. -/
def chat (resp : Except String String) : String :=
  match resp with
  | .ok content => content
  | .error e => apologyText ++ e

/-! ### The session model of `app.py` -/

/-- `st.session_state` after `initialize_session_state` (`app.py` 56-68):
messages are (role, content) pairs. -/
structure SessionState where
  messages : List (String × String)
  user_profile : Option UserProfile
  diet_plan : Option WeeklyDietPlan
  conversation_complete : Bool

def initialize_session_state : SessionState :=
  { messages := [], user_profile := Option.none, diet_plan := Option.none,
    conversation_complete := false }

/-- Outcome of one button handler attempt: `initFailure` = the
`AIDietitian()` constructor raised before any oracle call (caught by the
handler's `except`), `failure` = the pipeline returned `None`, `success` =
the pipeline returned a validated value. -/
inductive AttemptOutcome (α : Type) where
  | initFailure
  | failure
  | success (a : α)

/-- The Extract Profile button handler (`app.py` 246-258).  The button is
disabled while `messages` is empty; the second component counts oracle calls
issued. -/
def stepExtract (s : SessionState) (o : AttemptOutcome UserProfile) :
    SessionState × Nat :=
  if s.messages.isEmpty then (s, 0)
  else
    match o with
    | .initFailure => (s, 0)
    | .failure => (s, 1)
    | .success p => ({ s with user_profile := some p }, 1)

/-- The Generate Diet Plan button handler (`app.py` 260-273).  The button is
disabled while `user_profile` is `None`, so no oracle call can be issued
then. -/
def stepGenerate (s : SessionState) (o : AttemptOutcome WeeklyDietPlan) :
    SessionState × Nat :=
  if s.user_profile.isNone then (s, 0)
  else
    match o with
    | .initFailure => (s, 0)
    | .failure => (s, 1)
    | .success p => ({ s with diet_plan := some p }, 1)

/-- The chat input handler (`app.py` 216-240): the user message is appended
before the `try`; on constructor success the assistant reply (`chat` never
raises) is appended, and when the transcript has reached 6 messages with no
stored profile an automatic extraction runs whose `None` outcome stores
nothing. -/
def stepChat (s : SessionState) (prompt : String) (ctorOk : Bool)
    (chatResp : Except String String) (extractOutcome : Option UserProfile) :
    SessionState × Nat :=
  let s1 := { s with messages := s.messages ++ [("user", prompt)] }
  if ctorOk then
    let s2 := { s1 with messages := s1.messages ++ [("assistant", chat chatResp)] }
    if 6 ≤ s2.messages.length ∧ s2.user_profile.isNone then
      match extractOutcome with
      | some p => ({ s2 with user_profile := some p }, 2)
      | Option.none => (s2, 2)
    else (s2, 1)
  else (s1, 0)

/-- The Complete Session button handler (`app.py` 276-278), disabled without
a stored plan. -/
def stepComplete (s : SessionState) : SessionState :=
  if s.diet_plan.isSome then { s with conversation_complete := true } else s

/-- The Start New Session button handler (`app.py` 316-321). -/
def stepReset (_ : SessionState) : SessionState :=
  initialize_session_state

/-! ### Aggregates as the spec words them (DocumentAssembler)

The spec's DocumentAssembler recomputes aggregates; the repository has no
such component, so these definitions follow the spec's words and are only
compared against what the code returns. -/

/-- Following the spec's words: the calories figure of one meal, read from
its `nutrition_info`. -/
def spec_mealCalories (m : MealPlan) : Int :=
  match jlookup m.nutrition_info "calories" with
  | some (.jint n) => n
  | _ => 0

/-- Following the spec's words: a daily calories total recomputed as the sum
of the per-meal figures. -/
def spec_dailyCaloriesSum (dp : DailyPlan) : Int :=
  (dp.meals.map spec_mealCalories).sum

/-- Following the spec's words: the weekly calories total recomputed as the
sum of the daily totals. -/
def spec_weeklyCaloriesSum (p : WeeklyDietPlan) : Int :=
  (p.daily_plans.map DailyPlan.total_calories).sum

/-! ### Concrete fixtures for counterexamples and witnesses -/

/-- A `json.loads` behaviour that fails to parse (the Python message for
non-JSON input). -/
def loadsFailing : List Char → Except String Json :=
  fun _ => .error "Expecting value: line 1 column 1 (char 0)"

/-- A `json.loads` behaviour returning a fixed parsed value. -/
def loadsConst (j : Json) : List Char → Except String Json :=
  fun _ => .ok j

/-- A complete, valid profile object with both `Optional` fields absent. -/
def profileJ : JObj :=
  [("name", Json.jstr "Ada"), ("age", Json.jint 30), ("gender", Json.jstr "female"),
   ("height_cm", Json.jint 170), ("weight_kg", Json.jint 70),
   ("activity_level", Json.jstr "sedentary"), ("goal", Json.jstr "maintenance"),
   ("dietary_restrictions", Json.jarr [Json.jstr "vegan"]),
   ("allergies", Json.jarr []), ("preferences", Json.jarr []),
   ("dislikes", Json.jarr []), ("daily_routine", Json.jobj []),
   ("cooking_skill", Json.jstr "basic"), ("cultural_preferences", Json.jarr [])]

/-- The value `profileJ` validates to. -/
def profileV : UserProfile :=
  { name := "Ada", age := 30, gender := "female",
    height_cm := ((170 : Int) : Rat), weight_kg := ((70 : Int) : Rat),
    target_weight_kg := Option.none, activity_level := .sedentary,
    goal := .maintenance, dietary_restrictions := [.vegan], allergies := [],
    preferences := [], dislikes := [], daily_routine := [],
    cooking_skill := "basic", budget_constraint := Option.none,
    cultural_preferences := [] }

/-- `profileJ` with the list-typed field `allergies` removed. -/
def profileMissingAllergies : JObj :=
  [("name", Json.jstr "Ada"), ("age", Json.jint 30), ("gender", Json.jstr "female"),
   ("height_cm", Json.jint 170), ("weight_kg", Json.jint 70),
   ("activity_level", Json.jstr "sedentary"), ("goal", Json.jstr "maintenance"),
   ("dietary_restrictions", Json.jarr [Json.jstr "vegan"]),
   ("preferences", Json.jarr []),
   ("dislikes", Json.jarr []), ("daily_routine", Json.jobj []),
   ("cooking_skill", Json.jstr "basic"), ("cultural_preferences", Json.jarr [])]

/-- `profileJ` with a negative age (and a zero height). -/
def profileNegAge : JObj :=
  [("name", Json.jstr "Ada"), ("age", Json.jint (-5)), ("gender", Json.jstr "female"),
   ("height_cm", Json.jint 0), ("weight_kg", Json.jint 70),
   ("activity_level", Json.jstr "sedentary"), ("goal", Json.jstr "maintenance"),
   ("dietary_restrictions", Json.jarr [Json.jstr "vegan"]),
   ("allergies", Json.jarr []), ("preferences", Json.jarr []),
   ("dislikes", Json.jarr []), ("daily_routine", Json.jobj []),
   ("cooking_skill", Json.jstr "basic"), ("cultural_preferences", Json.jarr [])]

/-- A meal object whose only nutrition figure is `calories`. -/
def mealJson (cal : Int) : Json :=
  Json.jobj [("meal_time", Json.jstr "breakfast"), ("meal_name", Json.jstr "meal"),
   ("description", Json.jstr "d"), ("ingredients", Json.jarr []),
   ("instructions", Json.jarr []),
   ("nutrition_info", Json.jobj [("calories", Json.jint cal)]),
   ("prep_time", Json.jstr "5 min"), ("cooking_time", Json.jstr "5 min"),
   ("difficulty", Json.jstr "easy")]

/-- The fields of a daily-plan object with given meals and stated total. -/
def dayFields (d : String) (meals : List Json) (cal : Int) : JObj :=
  [("day", Json.jstr d), ("meals", Json.jarr meals),
   ("total_calories", Json.jint cal), ("total_protein", Json.jint 0),
   ("total_carbs", Json.jint 0), ("total_fat", Json.jint 0)]

def dayJson (d : String) (meals : List Json) (cal : Int) : Json :=
  Json.jobj (dayFields d meals cal)

/-- The fields of a weekly-plan object around `profileJ`. -/
def weeklyFields (dailies : List Json) (summary : JObj) : JObj :=
  [("user_profile", Json.jobj profileJ), ("daily_plans", Json.jarr dailies),
   ("weekly_summary", Json.jobj summary), ("recommendations", Json.jarr []),
   ("shopping_list", Json.jarr []), ("created_date", Json.jstr "2024-01-01")]

/-- The value a meal-free daily-plan object validates to. -/
def dayV (d : String) (cal : Int) : DailyPlan :=
  { day := d, meals := [], total_calories := cal,
    total_protein := ((0 : Int) : Rat), total_carbs := ((0 : Int) : Rat),
    total_fat := ((0 : Int) : Rat), notes := Option.none }

/-- The value of the one-day weekly plan used by several witnesses. -/
def planOneDayV : WeeklyDietPlan :=
  { user_profile := profileV, daily_plans := [dayV "Mon" 1200],
    weekly_summary := [], recommendations := [], shopping_list := [],
    created_date := "2024-01-01" }

/-! ### Lemmas about the sanitizer -/

lemma jsonFence_cons :
    jsonFence = backtick :: backtick :: backtick :: 'j' :: 's' :: 'o' :: 'n' :: [] := by
  decide

lemma closeFence_cons : closeFence = backtick :: backtick :: backtick :: [] := by
  decide

lemma isPySpace_backtick : isPySpace backtick = false := by decide

lemma startsWithL_append_self (p l : List Char) : startsWithL p (p ++ l) = true := by
  induction p with
  | nil => rfl
  | cons a ps ih => simp [startsWithL, ih]

lemma startsWithL_backtick_head_false {l : List Char} (pat : List Char)
    (h : backtick ∉ l) : startsWithL (backtick :: pat) l = false := by
  cases l with
  | nil => rfl
  | cons c cs =>
    have hc : c ≠ backtick := fun hc => h (hc ▸ List.mem_cons_self c cs)
    have hbe : (backtick == c) = false := beq_eq_false_iff_ne.mpr (Ne.symm hc)
    simp [startsWithL, hbe]

lemma mem_of_mem_pyStrip {x : Char} {l : List Char} (h : x ∈ pyStrip l) : x ∈ l := by
  unfold pyStrip at h
  exact (List.dropWhile_sublist _).subset ((List.rdropWhile_prefix _ _).subset h)

lemma pyStrip_idem (l : List Char) : pyStrip (pyStrip l) = pyStrip l := by
  unfold pyStrip
  have hA : List.dropWhile isPySpace (List.dropWhile isPySpace l) =
      List.dropWhile isPySpace l := List.dropWhile_idempotent _ _
  set A := List.dropWhile isPySpace l with hAdef
  have h1 : List.dropWhile isPySpace (List.rdropWhile isPySpace A) =
      List.rdropWhile isPySpace A := by
    rw [List.dropWhile_eq_self_iff]
    intro hl
    have hpre : List.rdropWhile isPySpace A <+: A := List.rdropWhile_prefix _ _
    have hget : (List.rdropWhile isPySpace A).get ⟨0, hl⟩ =
        A.get ⟨0, lt_of_lt_of_le hl hpre.length_le⟩ := by
      simpa [List.get_eq_getElem] using hpre.getElem hl
    rw [hget]
    have := List.dropWhile_eq_self_iff.mp hA
    exact this _
  rw [h1, List.rdropWhile_idempotent]

lemma sanitize_eq_pyStrip_of_no_backtick {l : List Char} (h : backtick ∉ l) :
    sanitize l = pyStrip l := by
  have hmem : backtick ∉ pyStrip l := fun hx => h (mem_of_mem_pyStrip hx)
  have h1 : startsWithL jsonFence (pyStrip l) = false := by
    rw [jsonFence_cons]
    exact startsWithL_backtick_head_false _ hmem
  have h2 : endsWithL closeFence (pyStrip l) = false := by
    unfold endsWithL
    rw [closeFence_cons]
    have hmemr : backtick ∉ (pyStrip l).reverse := by
      simpa using hmem
    exact startsWithL_backtick_head_false _ hmemr
  simp [sanitize, h1, h2]

lemma pyStrip_fenced (T : List Char) :
    pyStrip (jsonFence ++ T ++ closeFence) = jsonFence ++ T ++ closeFence := by
  unfold pyStrip
  have h1 : List.dropWhile isPySpace (jsonFence ++ T ++ closeFence) =
      jsonFence ++ T ++ closeFence := by
    rw [jsonFence_cons]
    simp only [List.cons_append, List.dropWhile_cons, isPySpace_backtick]
    simp
  rw [h1]
  have h2 : jsonFence ++ T ++ closeFence =
      (jsonFence ++ T ++ [backtick, backtick]) ++ [backtick] := by
    rw [closeFence_cons]
    simp
  rw [h2, List.rdropWhile_concat_neg]
  simp [isPySpace_backtick]

lemma sanitize_fenced (T : List Char) :
    sanitize (jsonFence ++ T ++ closeFence) = T := by
  have hstart : startsWithL jsonFence (jsonFence ++ T ++ closeFence) = true := by
    rw [List.append_assoc]
    exact startsWithL_append_self _ _
  have hdrop : (jsonFence ++ T ++ closeFence).drop 7 = T ++ closeFence := by
    rw [List.append_assoc]
    have h7 : (7 : ℕ) = jsonFence.length := rfl
    rw [h7, List.drop_left]
  have hend : endsWithL closeFence (T ++ closeFence) = true := by
    unfold endsWithL
    rw [List.reverse_append]
    exact startsWithL_append_self _ _
  have hlen : (T ++ closeFence).length - 3 = T.length := by
    simp [closeFence_cons]
  simp only [sanitize, pyStrip_fenced, hstart, if_true, hdrop, hend, hlen]
  exact List.take_left T closeFence

/-! ### Inversion lemmas for the validators -/

lemma exceptBind_ok_iff {α β : Type} {e : Except String α} {k : α → Except String β} {b : β} :
    e >>= k = .ok b ↔ ∃ a, e = .ok a ∧ k a = .ok b := by
  cases e with
  | error s => simp [Bind.bind, Except.bind]
  | ok a => simp [Bind.bind, Except.bind]

lemma pure_ok_iff {α : Type} {a b : α} : (pure a : Except String α) = .ok b ↔ a = b := by
  simp [pure, Except.pure]

lemma reqField_ok_iff {fs : JObj} {k : String} {v : Json} :
    reqField fs k = .ok v ↔ jlookup fs k = some v := by
  unfold reqField
  cases h : jlookup fs k <;> simp

lemma toOption_ok {α : Type} {a : α} : (Except.ok a : Except String α).toOption = some a := rfl

lemma toOption_error {α : Type} {e : String} :
    (Except.error e : Except String α).toOption = Option.none := rfl

lemma vOptFloat_absent {fs : JObj} {k : String} (h : jlookup fs k = Option.none) :
    vOptFloat fs k = .ok Option.none := by
  unfold vOptFloat optField
  rw [h]

lemma vOptStr_absent {fs : JObj} {k : String} (h : jlookup fs k = Option.none) :
    vOptStr fs k = .ok Option.none := by
  unfold vOptStr optField
  rw [h]

lemma mapExcept_ok_length {α : Type} {f : Json → Except String α} {xs : List Json}
    {ys : List α} (h : mapExcept f xs = .ok ys) : ys.length = xs.length := by
  induction xs generalizing ys with
  | nil =>
    unfold mapExcept at h
    simp only [Except.ok.injEq] at h
    subst h
    rfl
  | cons x xs ih =>
    unfold mapExcept at h
    simp only [exceptBind_ok_iff, Except.ok.injEq] at h
    obtain ⟨a, _, as, has, rfl⟩ := h
    simp [ih has]

lemma mapExcept_ok_forall {α : Type} {f : Json → Except String α} {xs : List Json}
    {ys : List α} (h : mapExcept f xs = .ok ys) : ∀ x ∈ xs, ∃ y, f x = .ok y := by
  induction xs generalizing ys with
  | nil => simp
  | cons x xs ih =>
    unfold mapExcept at h
    simp only [exceptBind_ok_iff, Except.ok.injEq] at h
    obtain ⟨a, ha, as, has, rfl⟩ := h
    intro z hz
    rcases List.mem_cons.mp hz with rfl | hz
    · exact ⟨a, ha⟩
    · exact ih has z hz

lemma vEnum_ok_inv {α : Type} {parse : String → Option α} {what : String}
    {v : Json} {a : α} (h : vEnum parse what v = .ok a) :
    ∃ s, v = Json.jstr s ∧ parse s = some a := by
  cases v with
  | jstr s =>
    refine ⟨s, rfl, ?_⟩
    have hv : vEnum parse what (Json.jstr s) =
        (match parse s with
         | some a => Except.ok a
         | Option.none => Except.error (what ++ " enum value expected")) := rfl
    rw [hv] at h
    cases hp : parse s with
    | none => rw [hp] at h; exact absurd h (by simp)
    | some b =>
      rw [hp] at h
      injection h with hba
      rw [hba]
  | jnull => exact absurd h (by simp [vEnum])
  | jbool b => exact absurd h (by simp [vEnum])
  | jint n => exact absurd h (by simp [vEnum])
  | jnum q => exact absurd h (by simp [vEnum])
  | jarr xs => exact absurd h (by simp [vEnum])
  | jobj fs => exact absurd h (by simp [vEnum])

lemma vList_ok_inv {α : Type} {f : Json → Except String α} {v : Json} {ys : List α}
    (h : vList f v = .ok ys) : ∃ xs, v = Json.jarr xs ∧ mapExcept f xs = .ok ys := by
  cases v with
  | jarr xs => exact ⟨xs, rfl, h⟩
  | jnull => exact absurd h (by simp [vList])
  | jbool b => exact absurd h (by simp [vList])
  | jint n => exact absurd h (by simp [vList])
  | jnum q => exact absurd h (by simp [vList])
  | jstr s => exact absurd h (by simp [vList])
  | jobj fs => exact absurd h (by simp [vList])

lemma parseActivity_mem {s : String} {a : ActivityLevel}
    (h : parseActivity s = some a) : s ∈ activityStrings := by
  unfold parseActivity at h
  split_ifs at h <;> simp_all [activityStrings]

lemma parseGoal_mem {s : String} {a : Goal}
    (h : parseGoal s = some a) : s ∈ goalStrings := by
  unfold parseGoal at h
  split_ifs at h <;> simp_all [goalStrings]

lemma parseRestriction_mem {s : String} {a : DietaryRestriction}
    (h : parseRestriction s = some a) : s ∈ restrictionStrings := by
  unfold parseRestriction at h
  split_ifs at h <;> simp_all [restrictionStrings]

lemma vInt_jint {n m : Int} (h : vInt (Json.jint n) = .ok m) : m = n := by
  unfold vInt at h
  injection h with h
  exact h.symm

/-- Master inversion for `validateUserProfile`: a successful validation
determines, field by field, what the input object contained. -/
lemma validateUserProfile_ok_inv {fs : JObj} {p : UserProfile}
    (h : validateUserProfile (Json.jobj fs) = .ok p) :
    (∃ v, jlookup fs "name" = some v ∧ vStr v = .ok p.name) ∧
    (∃ v, jlookup fs "age" = some v ∧ vInt v = .ok p.age) ∧
    (∃ v, jlookup fs "gender" = some v ∧ vStr v = .ok p.gender) ∧
    (∃ v, jlookup fs "height_cm" = some v ∧ vFloat v = .ok p.height_cm) ∧
    (∃ v, jlookup fs "weight_kg" = some v ∧ vFloat v = .ok p.weight_kg) ∧
    vOptFloat fs "target_weight_kg" = .ok p.target_weight_kg ∧
    (∃ v, jlookup fs "activity_level" = some v ∧
      vEnum parseActivity "ActivityLevel" v = .ok p.activity_level) ∧
    (∃ v, jlookup fs "goal" = some v ∧ vEnum parseGoal "Goal" v = .ok p.goal) ∧
    (∃ v, jlookup fs "dietary_restrictions" = some v ∧
      vList (vEnum parseRestriction "DietaryRestriction") v = .ok p.dietary_restrictions) ∧
    (∃ v, jlookup fs "allergies" = some v ∧ vList vStr v = .ok p.allergies) ∧
    (∃ v, jlookup fs "preferences" = some v ∧ vList vStr v = .ok p.preferences) ∧
    (∃ v, jlookup fs "dislikes" = some v ∧ vList vStr v = .ok p.dislikes) ∧
    (∃ v, jlookup fs "daily_routine" = some v ∧ vStrDict v = .ok p.daily_routine) ∧
    (∃ v, jlookup fs "cooking_skill" = some v ∧ vStr v = .ok p.cooking_skill) ∧
    vOptStr fs "budget_constraint" = .ok p.budget_constraint ∧
    (∃ v, jlookup fs "cultural_preferences" = some v ∧
      vList vStr v = .ok p.cultural_preferences) := by
  unfold validateUserProfile at h
  simp only [exceptBind_ok_iff, reqField_ok_iff, pure_ok_iff] at h
  obtain ⟨name, hname, age, hage, gender, hgender, height_cm, hheight,
    weight_kg, hweight, target_weight_kg, htarget, activity_level, hact,
    goal, hgoal, dietary_restrictions, hdiet, allergies, hall,
    preferences, hpref, dislikes, hdis, daily_routine, hrout,
    cooking_skill, hcook, budget_constraint, hbud,
    cultural_preferences, hcult, rfl⟩ := h
  exact ⟨hname, hage, hgender, hheight, hweight, htarget, hact, hgoal,
    hdiet, hall, hpref, hdis, hrout, hcook, hbud, hcult⟩

/-- Master inversion for `validateDailyPlan`. -/
lemma validateDailyPlan_ok_inv {fs : JObj} {dp : DailyPlan}
    (h : validateDailyPlan (Json.jobj fs) = .ok dp) :
    (∃ v, jlookup fs "day" = some v ∧ vStr v = .ok dp.day) ∧
    (∃ v, jlookup fs "meals" = some v ∧ vList validateMealPlan v = .ok dp.meals) ∧
    (∃ v, jlookup fs "total_calories" = some v ∧ vInt v = .ok dp.total_calories) ∧
    (∃ v, jlookup fs "total_protein" = some v ∧ vFloat v = .ok dp.total_protein) ∧
    (∃ v, jlookup fs "total_carbs" = some v ∧ vFloat v = .ok dp.total_carbs) ∧
    (∃ v, jlookup fs "total_fat" = some v ∧ vFloat v = .ok dp.total_fat) ∧
    vOptStr fs "notes" = .ok dp.notes := by
  unfold validateDailyPlan at h
  simp only [exceptBind_ok_iff, reqField_ok_iff, pure_ok_iff] at h
  obtain ⟨day, hday, meals, hmeals, total_calories, hcal, total_protein, hprot,
    total_carbs, hcarb, total_fat, hfat, notes, hnotes, rfl⟩ := h
  exact ⟨hday, hmeals, hcal, hprot, hcarb, hfat, hnotes⟩

/-- Master inversion for `validateWeeklyDietPlan`. -/
lemma validateWeeklyDietPlan_ok_inv {fs : JObj} {p : WeeklyDietPlan}
    (h : validateWeeklyDietPlan (Json.jobj fs) = .ok p) :
    (∃ v, jlookup fs "user_profile" = some v ∧
      validateUserProfile v = .ok p.user_profile) ∧
    (∃ v, jlookup fs "daily_plans" = some v ∧
      vList validateDailyPlan v = .ok p.daily_plans) ∧
    (∃ v, jlookup fs "weekly_summary" = some v ∧ vAnyDict v = .ok p.weekly_summary) ∧
    (∃ v, jlookup fs "recommendations" = some v ∧ vList vStr v = .ok p.recommendations) ∧
    (∃ v, jlookup fs "shopping_list" = some v ∧ vList vStr v = .ok p.shopping_list) ∧
    (∃ v, jlookup fs "created_date" = some v ∧ vStr v = .ok p.created_date) := by
  unfold validateWeeklyDietPlan at h
  simp only [exceptBind_ok_iff, reqField_ok_iff, pure_ok_iff] at h
  obtain ⟨user_profile, hup, daily_plans, hdp, weekly_summary, hws,
    recommendations, hrec, shopping_list, hsl, created_date, hcd, rfl⟩ := h
  exact ⟨hup, hdp, hws, hrec, hsl, hcd⟩


lemma vAnyDict_jobj {fs gs : JObj} (h : vAnyDict (Json.jobj fs) = .ok gs) : gs = fs := by
  unfold vAnyDict at h
  injection h with h
  exact h.symm

/-! ### The claims -/

/-- Claim C1, counterexample: a daily plan with meals of 300/500/700 calories
and an oracle-stated total of 1600 comes out of `create_diet_plan` with
`total_calories = 1600`, not the recomputed 1500 — no corrected output
exists. -/
theorem claim1_counterexample :
    (create_diet_plan (loadsConst (Json.jobj (weeklyFields
        [dayJson "Monday" [mealJson 300, mealJson 500, mealJson 700] 1600] [])))
      (Except.ok [])).map
        (fun p => (p.daily_plans.map DailyPlan.total_calories,
                   p.daily_plans.map spec_dailyCaloriesSum))
      = some ([1600], [1500]) := rfl

/-- Claim C1, amended: plan assembly performs no aggregate recomputation or
correction — a daily plan's `total_calories` in the validated output is
exactly the oracle-supplied integer, independent of the per-meal figures. -/
theorem claim1_daily_totals_pass_through (fs : JObj) (dp : DailyPlan) (n : Int)
    (h : validateDailyPlan (Json.jobj fs) = .ok dp)
    (hn : jlookup fs "total_calories" = some (Json.jint n)) :
    dp.total_calories = n := by
  obtain ⟨-, -, ⟨v, hv, hint⟩, -, -, -, -⟩ := validateDailyPlan_ok_inv h
  rw [hv] at hn
  injection hn with hvn
  subst hvn
  exact vInt_jint hint

/-- Claim C1, witness: the pass-through theorem applied to a concrete daily
plan whose stated total is 1600. -/
theorem claim1_witness :
    validateDailyPlan (Json.jobj (dayFields "Mon" [] 1600)) = .ok (dayV "Mon" 1600) ∧
    (dayV "Mon" 1600).total_calories = 1600 :=
  ⟨rfl, claim1_daily_totals_pass_through (dayFields "Mon" [] 1600) (dayV "Mon" 1600) 1600 rfl rfl⟩

/-- Claim C2, counterexample: a plan whose seven daily totals are
1500/1600/1500/1500/1400/1600/1500 (sum 10600) but whose oracle-supplied
`weekly_summary.total_calories` is 99 is accepted unchanged. -/
theorem claim2_counterexample :
    (create_diet_plan (loadsConst (Json.jobj (weeklyFields
        [dayJson "Mon" [] 1500, dayJson "Tue" [] 1600, dayJson "Wed" [] 1500,
         dayJson "Thu" [] 1500, dayJson "Fri" [] 1400, dayJson "Sat" [] 1600,
         dayJson "Sun" [] 1500] [("total_calories", Json.jint 99)])))
      (Except.ok [])).map
        (fun p => (jlookup p.weekly_summary "total_calories", spec_weeklyCaloriesSum p))
      = some (some (Json.jint 99), 10600) := rfl

/-- Claim C2, amended: the pipeline never relates `weekly_summary` to the
daily totals — the validated plan's `weekly_summary` is exactly the
oracle-supplied object. -/
theorem claim2_weekly_summary_passes_through (fs : JObj) (p : WeeklyDietPlan) (ws : JObj)
    (h : validateWeeklyDietPlan (Json.jobj fs) = .ok p)
    (hws : jlookup fs "weekly_summary" = some (Json.jobj ws)) :
    p.weekly_summary = ws := by
  obtain ⟨-, -, ⟨v, hv, hdict⟩, -, -, -⟩ := validateWeeklyDietPlan_ok_inv h
  rw [hv] at hws
  injection hws with hvw
  subst hvw
  exact vAnyDict_jobj hdict

/-- Claim C2, witness: the pass-through theorem applied to a concrete
one-day plan with an empty summary. -/
theorem claim2_witness :
    validateWeeklyDietPlan (Json.jobj (weeklyFields [dayJson "Mon" [] 1200] []))
      = .ok planOneDayV ∧
    planOneDayV.weekly_summary = [] :=
  ⟨rfl, claim2_weekly_summary_passes_through (weeklyFields [dayJson "Mon" [] 1200] [])
    planOneDayV [] rfl rfl⟩

/-- Claim C3, counterexample: the sanitizer is not idempotent — on six
backticks one application leaves three backticks, a second application
removes them. -/
theorem claim3_counterexample :
    sanitize (sanitize ("``````".toList)) ≠ sanitize ("``````".toList) := by
  decide

/-- Claim C3, amended: the sanitizer is idempotent on backtick-free text, and
stripping is exact for the one fence shape the code handles — an opener that
is literally the json-tagged fence and a bare closing fence — returning the
inner text unchanged (not whitespace-trimmed; other language hints are not
stripped). -/
theorem claim3_fence_strip_and_restricted_idempotence (T : List Char) :
    (backtick ∉ T → sanitize (sanitize T) = sanitize T) ∧
    sanitize (jsonFence ++ T ++ closeFence) = T := by
  constructor
  · intro h
    rw [sanitize_eq_pyStrip_of_no_backtick h,
        sanitize_eq_pyStrip_of_no_backtick (fun hx => h (mem_of_mem_pyStrip hx)),
        pyStrip_idem]
  · exact sanitize_fenced T

/-- Claim C3, witness: the amended theorem applied to a concrete
backtick-free text. -/
theorem claim3_witness :
    backtick ∉ (" hello ".toList) ∧
    sanitize (sanitize (" hello ".toList)) = sanitize (" hello ".toList) :=
  ⟨by decide, (claim3_fence_strip_and_restricted_idempotence (" hello ".toList)).1 (by decide)⟩

/-- Claim C4, counterexample: a parse failure produces an error reason inside
the pipeline body, but `extract_user_profile` returns the bare `None`; an
oracle failure with a different reason returns the very same `None`, so the
returned failure value carries no reason. -/
theorem claim4_counterexample :
    extract_user_profile_body loadsFailing (Except.ok [])
      = .error "Expecting value: line 1 column 1 (char 0)" ∧
    extract_user_profile loadsFailing (Except.ok []) = Option.none ∧
    extract_user_profile loadsFailing (Except.error "APIError: rate limit") = Option.none :=
  ⟨rfl, rfl, rfl⟩

/-- Claim C4, amended: profile extraction never propagates an exception —
every failing run of the pipeline body is absorbed to the reason-free `None`
and every successful run is returned as the validated profile. -/
theorem claim4_failures_absorbed (loads : List Char → Except String Json)
    (resp : Except String (List Char)) :
    (∀ e, extract_user_profile_body loads resp = .error e →
      extract_user_profile loads resp = Option.none) ∧
    (∀ p, extract_user_profile_body loads resp = .ok p →
      extract_user_profile loads resp = some p) := by
  constructor
  · intro e he
    unfold extract_user_profile
    rw [he]
    rfl
  · intro p hp
    unfold extract_user_profile
    rw [hp]
    rfl

/-- Claim C4, witness: the absorption theorem applied to a concrete failing
parse. -/
theorem claim4_witness :
    extract_user_profile loadsFailing (Except.ok []) = Option.none :=
  (claim4_failures_absorbed loadsFailing (Except.ok [])).1
    "Expecting value: line 1 column 1 (char 0)" rfl

/-- Claim C5, counterexample: a profile object missing the list-typed field
`allergies` does not validate with an empty default — validation fails and
the pipeline returns `None`. -/
theorem claim5_counterexample :
    validateUserProfile (Json.jobj profileMissingAllergies)
      = .error "allergies field required" ∧
    extract_user_profile (loadsConst (Json.jobj profileMissingAllergies))
      (Except.ok []) = Option.none :=
  ⟨rfl, rfl⟩

/-- Claim C5, amended: list-typed profile fields are required — an accepted
profile proves they were all present — while the two `Optional` fields
default to `None` when absent. -/
theorem claim5_list_fields_required_optionals_default (fs : JObj) (p : UserProfile)
    (h : validateUserProfile (Json.jobj fs) = .ok p) :
    (jlookup fs "dietary_restrictions" ≠ Option.none ∧
     jlookup fs "allergies" ≠ Option.none ∧
     jlookup fs "preferences" ≠ Option.none ∧
     jlookup fs "dislikes" ≠ Option.none ∧
     jlookup fs "cultural_preferences" ≠ Option.none) ∧
    (jlookup fs "target_weight_kg" = Option.none → p.target_weight_kg = Option.none) ∧
    (jlookup fs "budget_constraint" = Option.none → p.budget_constraint = Option.none) := by
  obtain ⟨-, -, -, -, -, htar, -, -, ⟨vd, hvd, -⟩, ⟨va, hva, -⟩, ⟨vp, hvp, -⟩,
    ⟨vdis, hvdis, -⟩, -, -, hbud, ⟨vc, hvc, -⟩⟩ := validateUserProfile_ok_inv h
  refine ⟨⟨?_, ?_, ?_, ?_, ?_⟩, ?_, ?_⟩
  · rw [hvd]; simp
  · rw [hva]; simp
  · rw [hvp]; simp
  · rw [hvdis]; simp
  · rw [hvc]; simp
  · intro habs
    have h2 := (vOptFloat_absent habs).symm.trans htar
    injection h2 with h3
    exact h3.symm
  · intro habs
    have h2 := (vOptStr_absent habs).symm.trans hbud
    injection h2 with h3
    exact h3.symm

/-- Claim C5, witness: the amended theorem applied to a concrete valid
profile with both optional fields absent. -/
theorem claim5_witness :
    validateUserProfile (Json.jobj profileJ) = .ok profileV ∧
    jlookup profileJ "target_weight_kg" = Option.none ∧
    profileV.target_weight_kg = Option.none ∧ profileV.budget_constraint = Option.none :=
  ⟨rfl, rfl,
   (claim5_list_fields_required_optionals_default profileJ profileV rfl).2.1 rfl,
   (claim5_list_fields_required_optionals_default profileJ profileV rfl).2.2 rfl⟩

/-- Claim C6, counterexample: a weekly plan with a single daily plan is
accepted by validation — the 7-day count is not enforced anywhere. -/
theorem claim6_counterexample :
    (create_diet_plan (loadsConst (Json.jobj (weeklyFields [dayJson "Mon" [] 1200] [])))
      (Except.ok [])).map (fun p => p.daily_plans.length) = some 1 := rfl

/-- Claim C6, amended: validation accepts any number of daily plans — the
output list has exactly the length of the supplied array, with no 7-element
constraint. -/
theorem claim6_daily_plans_length_unconstrained (fs : JObj) (p : WeeklyDietPlan)
    (xs : List Json) (h : validateWeeklyDietPlan (Json.jobj fs) = .ok p)
    (hxs : jlookup fs "daily_plans" = some (Json.jarr xs)) :
    p.daily_plans.length = xs.length := by
  obtain ⟨-, ⟨v, hv, hlist⟩, -, -, -, -⟩ := validateWeeklyDietPlan_ok_inv h
  rw [hv] at hxs
  injection hxs with hvx
  subst hvx
  obtain ⟨xs2, heq, hmap⟩ := vList_ok_inv hlist
  injection heq with heq2
  subst heq2
  exact mapExcept_ok_length hmap

/-- Claim C6, witness: the length theorem applied to a concrete one-day
plan. -/
theorem claim6_witness :
    validateWeeklyDietPlan (Json.jobj (weeklyFields [dayJson "Mon" [] 1200] []))
      = .ok planOneDayV ∧
    planOneDayV.daily_plans.length = 1 :=
  ⟨rfl, (claim6_daily_plans_length_unconstrained (weeklyFields [dayJson "Mon" [] 1200] [])
    planOneDayV [dayJson "Mon" [] 1200] rfl rfl).trans rfl⟩

/-- Claim C7, counterexample: positivity of numeric fields is not enforced —
a profile with a negative age and a zero height validates successfully. -/
theorem claim7_counterexample :
    (validateUserProfile (Json.jobj profileNegAge)).toOption.map
      (fun p => (p.age, p.height_cm)) = some (-5, ((0 : Int) : Rat)) := rfl

/-- Claim C7, amended: every accepted profile drew `activity_level` and
`goal` from their 5-value enumerations and every `dietary_restrictions`
element from the 9-value enumeration, but strict positivity of the numeric
fields is not checked. -/
theorem claim7_enums_enforced_not_positivity (fs : JObj) (p : UserProfile)
    (h : validateUserProfile (Json.jobj fs) = .ok p) :
    (∃ s, jlookup fs "activity_level" = some (Json.jstr s) ∧ s ∈ activityStrings) ∧
    (∃ s, jlookup fs "goal" = some (Json.jstr s) ∧ s ∈ goalStrings) ∧
    (∃ xs, jlookup fs "dietary_restrictions" = some (Json.jarr xs) ∧
      ∀ x ∈ xs, ∃ s, x = Json.jstr s ∧ s ∈ restrictionStrings) := by
  obtain ⟨-, -, -, -, -, -, ⟨va, hva, hacta⟩, ⟨vg, hvg, hgoal⟩, ⟨vd, hvd, hdiet⟩,
    -, -, -, -, -, -, -⟩ := validateUserProfile_ok_inv h
  refine ⟨?_, ?_, ?_⟩
  · obtain ⟨s, rfl, hps⟩ := vEnum_ok_inv hacta
    exact ⟨s, hva, parseActivity_mem hps⟩
  · obtain ⟨s, rfl, hps⟩ := vEnum_ok_inv hgoal
    exact ⟨s, hvg, parseGoal_mem hps⟩
  · obtain ⟨xs, rfl, hmap⟩ := vList_ok_inv hdiet
    refine ⟨xs, hvd, ?_⟩
    intro x hx
    obtain ⟨y, hy⟩ := mapExcept_ok_forall hmap x hx
    obtain ⟨s, rfl, hps⟩ := vEnum_ok_inv hy
    exact ⟨s, rfl, parseRestriction_mem hps⟩

/-- Claim C7, witness: the enumeration theorem applied to a concrete accepted
profile. -/
theorem claim7_witness :
    validateUserProfile (Json.jobj profileJ) = .ok profileV ∧
    (∃ s, jlookup profileJ "activity_level" = some (Json.jstr s) ∧ s ∈ activityStrings) :=
  ⟨rfl, (claim7_enums_enforced_not_positivity profileJ profileV rfl).1⟩

/-- Claim C8: requesting plan generation while the session holds no profile
is rejected with the state unchanged and zero oracle calls — the disabled
button never runs the handler, so the rejection precedes any external
call. -/
theorem claim8_plan_generation_guarded (s : SessionState) (o : AttemptOutcome WeeklyDietPlan)
    (h : s.user_profile = Option.none) : stepGenerate s o = (s, 0) := by
  unfold stepGenerate
  rw [h]
  rfl

/-- Claim C8, witness: the guard theorem applied to the freshly initialized
session. -/
theorem claim8_witness :
    initialize_session_state.user_profile = Option.none ∧
    stepGenerate initialize_session_state AttemptOutcome.failure
      = (initialize_session_state, 0) :=
  ⟨rfl, claim8_plan_generation_guarded initialize_session_state AttemptOutcome.failure rfl⟩

/-- Claim C9: a failed profile-extraction or plan-generation attempt leaves
the session state exactly as it was (stored profile and plan included), and
a chat turn whose automatic extraction fails leaves the stored profile and
plan untouched. -/
theorem claim9_failed_attempts_preserve_state (s : SessionState) :
    ((stepExtract s .failure).1 = s ∧ (stepExtract s .initFailure).1 = s) ∧
    ((stepGenerate s .failure).1 = s ∧ (stepGenerate s .initFailure).1 = s) ∧
    (∀ prompt ctorOk chatResp,
      (stepChat s prompt ctorOk chatResp Option.none).1.user_profile = s.user_profile ∧
      (stepChat s prompt ctorOk chatResp Option.none).1.diet_plan = s.diet_plan) := by
  refine ⟨⟨?_, ?_⟩, ⟨?_, ?_⟩, ?_⟩
  · unfold stepExtract; split <;> rfl
  · unfold stepExtract; split <;> rfl
  · unfold stepGenerate; split <;> rfl
  · unfold stepGenerate; split <;> rfl
  · intro prompt ctorOk chatResp
    cases ctorOk
    · simp [stepChat]
    · simp [stepChat]
      split <;> simp

/-- Claim C10: `chat` never raises — an oracle failure is returned as the
apology string with the error text appended, through the same `String`
channel as a successful reply, and the apology begins with "I apologize". -/
theorem claim10_chat_never_raises :
    (∀ e, chat (Except.error e) = apologyText ++ e) ∧
    (∀ e, ∃ r, chat (Except.error e) = "I apologize" ++ r) ∧
    (∀ c, chat (Except.ok c) = c) := by
  refine ⟨fun e => rfl, fun e => ⟨", but I" ++ String.singleton (Char.ofNat 39) ++
    "m experiencing technical difficulties. Please try again. Error: " ++ e, ?_⟩,
    fun c => rfl⟩
  rfl

end DietPlanner
